import Mathlib

/-!
# Verification of the whitelabelwallet Bitcoin transaction core

Shallow embedding of `src/coins/bitcoin/blockchain.js`
(`BitcoinBlockchainManager`): `generateAddressFromSeed`, `refreshAddress`,
`fetchAddressDetails` / `formatTransactionResponse`, `sendFromOneAddress`.

Network calls (`api.get`, `api.post`) are modelled by passing the provider's
responses in explicitly; a JS function that can both return a typed error
object and throw is modelled by a result type with an `ok` variant, an
`errorObject` variant (the value of `asErrorObject(...)`) and a `thrown`
variant (an exception escaping the async function as a promise rejection).
Monetary values are integers (satoshis); the human-decimal unit is `Rat`
(exact, standing in for the JS number at the decimal boundary).

The helper utilities imported from `coins/bitcoin/utils` and `lib/utils`
(`getInputs`, `getOutputs`, `getSatoshisToSend`, `satoshiToFloat`,
`asErrorObject`, `getTimestamp`) and the constants module are not part of the
provided sources; they are modelled from the spec and marked as such.
-/

/-- An unspent transaction output as returned by the provider's
`UNSPENT_OUTPUTS` endpoint; `blockchain.js` reads `txid`, `vout` and the
selector reads the satoshi value. Spec: UTXO = transactionId, outputIndex,
non-negative valueSatoshis. -/
structure Utxo where
  txid : String
  vout : Nat
  value : Nat
  deriving Repr, DecidableEq

/-- One entry of the `paymentData` argument of `sendFromOneAddress`:
a destination address and an amount in the human-decimal unit
(`refreshAddress` fills it with `satoshiToFloat(...)`). -/
structure Payment where
  address : String
  amount : Rat
  deriving Repr, DecidableEq

/-- A raw transaction output of the draft: destination address and integer
satoshi value (what `tx.addOutput(output.address, output.satoshis)`
receives). -/
structure TxOut where
  address : String
  satoshis : Int
  deriving Repr, DecidableEq

/-- The typed error kinds `sendFromOneAddress` can return through
`asErrorObject`; exactly the three destructured from `ERRORS.BLOCKCHAIN`
in `blockchain.js`: `API_ERROR`, `INSUFFICIENT_FUNDS`, `BROADCAST_ERROR`. -/
inductive BlockchainError
  | apiError
  | insufficientFunds
  | broadcastError
  deriving Repr, DecidableEq

/-- Result of `sendFromOneAddress`: a success object with an explorer link,
a typed error object (`asErrorObject e`), or an exception escaping the
async function (promise rejection). -/
inductive SendResult
  | ok (link : String)
  | errorObject (e : BlockchainError)
  | thrown
  deriving Repr, DecidableEq

/-- `asErrorObject` from `lib/utils`. Modelled from the spec: wraps an error
kind as a plain returned failure shape (returned, not thrown). -/
def asErrorObject (e : BlockchainError) : SendResult :=
  SendResult.errorObject e

/-- The mutable `bitcoin.TransactionBuilder` draft, observed as the lists of
added inputs (txid, vout) and added outputs, in insertion order. -/
structure TxDraft where
  inputs : List (String × Nat)
  outputs : List TxOut
  deriving Repr, DecidableEq

def emptyDraft : TxDraft := { inputs := [], outputs := [] }

/-- The provider's response to the broadcast `POST`: an HTTP status and the
optional `txid` field of the response body. -/
structure BroadcastResponse where
  status : Nat
  txid : Option String
  deriving Repr, DecidableEq

/-- The two network interactions of `sendFromOneAddress`, supplied
explicitly: the UTXO fetch (`api.get`) and the broadcast (`api.post`);
`Except.error` is the request throwing (caught and mapped to `API_ERROR`). -/
structure Provider where
  utxoResult : Except Unit (List Utxo)
  broadcastResult : Except Unit BroadcastResponse

/-- Full observable outcome of one `sendFromOneAddress` call: the returned
(or thrown) result, the final state of the transaction draft, how many
inputs were signed, and whether the broadcast request was issued. -/
structure SendOutcome where
  result : SendResult
  draft : TxDraft
  signCount : Nat
  broadcastCalled : Bool
  deriving Repr, DecidableEq

/-- Modelled from the spec: `satoshiToFloat` of `lib/utils` converts an
integer satoshi amount to the human-decimal unit (1 unit = 10^8 satoshis);
exact rational arithmetic stands in for the JS number. -/
def satoshiToFloat (s : Int) : Rat :=
  (s : Rat) / 100000000

/-- Modelled from the spec: the inverse boundary conversion used when a
decimal payment amount is turned into the integer satoshi value of a raw
output (clause 1 of the builder contract: convert payments into raw
outputs; all internal arithmetic in satoshis). -/
def floatToSatoshi (q : Rat) : Int :=
  ⌊q * 100000000⌋

/-- Modelled from the spec: `getOutputs` of `coins/bitcoin/utils` converts
`paymentData` into raw outputs in caller-supplied order. -/
def getOutputs (paymentData : List Payment) : List TxOut :=
  paymentData.map fun p => { address := p.address, satoshis := floatToSatoshi p.amount }

/-- Modelled from the spec: `getSatoshisToSend` of `coins/bitcoin/utils` is
the FeeModel spend target: sum of the output satoshi amounts plus the fee. -/
def getSatoshisToSend (outputs : List TxOut) (fee : Int) : Int :=
  (outputs.map (fun o => o.satoshis)).sum + fee

/-- First-fit accumulation of `getInputs`: take UTXOs in provider order
until the accumulated value reaches the target; `acc` is the value
accumulated so far. -/
def selectAux (utxos : List Utxo) (acc : Int) (target : Int) : List Utxo × Int :=
  if target ≤ acc then ([], acc - target)
  else
    match utxos with
    | [] => ([], acc - target)
    | u :: rest =>
      let r := selectAux rest (acc + (u.value : Int)) target
      (u :: r.1, r.2)

/-- Modelled from the spec: `getInputs` of `coins/bitcoin/utils` is the
UtxoSelector: accumulate UTXOs in listed order until accumulated ≥ target;
`remainingSatoshis = accumulated - target`, negative when even the whole
set falls short. -/
def getInputs (unspentOutputs : List Utxo) (satoshisToSend : Int) : List Utxo × Int :=
  selectAux unspentOutputs 0 satoshisToSend

/-- Whether `ch` is a hexadecimal digit. -/
def isHexChar (ch : Char) : Bool :=
  ch.isDigit || (('a' ≤ ch) && (ch ≤ 'f')) || (('A' ≤ ch) && (ch ≤ 'F'))

/-- Boundary model of `bitcoin.ECPair.fromPrivateKey(Buffer.from(key,
'hex'), ...)`: the library requires a 32-byte (64 hex character) private
key and throws a `TypeError` otherwise. -/
def isValidPrivateKeyHex (s : String) : Bool :=
  s.length == 64 && s.toList.all isHexChar

/-- Modelled from the spec: the `VIEW_TX` explorer URL builder from
`coins/bitcoin/constants`; a missing txid is interpolated as the text
`undefined`, as a JS template literal would. -/
def viewTx (txid : Option String) : String :=
  "tx/" ++ txid.getD "undefined"

/-- `sendFromOneAddress` of `blockchain.js`, lines 205-275, as a function of
the two network responses. `dustThreshold` and the fee are the
`DUST_THRESHOLD` / `DEFAULT_FEE` constants (their module is not in the
provided sources, so they are parameters). Steps in source order: parse the
private key (throws on a malformed key), build outputs and the spend
target, fetch UTXOs (`API_ERROR` on throw), select inputs, fail with
`INSUFFICIENT_FUNDS` when `remainingSatoshis < 0`, append a change output
when `remainingSatoshis` is truthy and above the dust threshold, add
inputs and outputs to the draft, sign each input, broadcast (`API_ERROR`
on throw), and return success iff the status is 200, else
`BROADCAST_ERROR`. -/
def sendFromOneAddress (dustThreshold : Int) (fee : Int) (provider : Provider)
    (fromAddress : String) (privateKey : String) (paymentData : List Payment) :
    SendOutcome :=
  if isValidPrivateKeyHex privateKey = false then
    { result := SendResult.thrown, draft := emptyDraft, signCount := 0, broadcastCalled := false }
  else
    let outputs := getOutputs paymentData
    let satoshisToSend := getSatoshisToSend outputs fee
    match provider.utxoResult with
    | Except.error _ =>
      { result := asErrorObject BlockchainError.apiError, draft := emptyDraft,
        signCount := 0, broadcastCalled := false }
    | Except.ok unspentOutputs =>
      let sel := getInputs unspentOutputs satoshisToSend
      let inputs := sel.1
      let remainingSatoshis := sel.2
      if remainingSatoshis < 0 then
        { result := asErrorObject BlockchainError.insufficientFunds, draft := emptyDraft,
          signCount := 0, broadcastCalled := false }
      else
        let outputs2 :=
          if remainingSatoshis ≠ 0 ∧ dustThreshold < remainingSatoshis then
            outputs ++ [{ address := fromAddress, satoshis := remainingSatoshis }]
          else outputs
        let draft : TxDraft :=
          { inputs := inputs.map (fun u => (u.txid, u.vout)), outputs := outputs2 }
        let result :=
          match provider.broadcastResult with
          | Except.error _ => asErrorObject BlockchainError.apiError
          | Except.ok res =>
            if res.status = 200 then SendResult.ok (viewTx res.txid)
            else asErrorObject BlockchainError.broadcastError
        { result := result, draft := draft,
          signCount := inputs.length, broadcastCalled := true }

/-- The record returned by `generateAddressFromSeed` and (on success) by
`refreshAddress`: address string, derivation index, hex private key. -/
structure AddressRecord where
  address : String
  index : Nat
  privateKey : String
  deriving Repr, DecidableEq

/-- A BIP32-style derivation coordinate, the data of the path string
`DERIVATION_PATH_BASE/account'/changeChain/addressIndex` built in
`generateAddressFromSeed`. -/
structure DerivPath where
  account : Nat
  changeChain : Nat
  addressIndex : Nat
  deriving Repr, DecidableEq

/-- Modelled from the spec: the external cryptographic pipeline
(`bip39.mnemonicToSeedSync`, `bip32.fromSeed(...).derivePath(...)`,
`bitcoin.payments.p2pkh`). Each operation is a pure deterministic function
of its inputs (no hidden state, no randomness); the engine only composes
them, so they are abstracted as an explicit record of functions. -/
structure CryptoLib where
  mnemonicToSeed : String → List Nat
  deriveKeys : List Nat → DerivPath → List Nat × List Nat
  p2pkhAddress : List Nat → String

/-- Hex digit character for a value below 16. -/
def hexDigit (d : Nat) : Char :=
  if d < 10 then Char.ofNat (48 + d) else Char.ofNat (87 + (d - 10))

/-- Byte list to lowercase hex string, the model of
`privateKey.toString('hex')`. -/
def bytesToHex (bs : List Nat) : String :=
  String.mk (bs.foldr (fun b acc => hexDigit (b % 256 / 16) :: hexDigit (b % 16) :: acc) [])

/-- Modelled from the spec: `BIP32.ACCOUNT_BASE` of
`coins/bitcoin/constants` (account 0 in the reference scenario). -/
def ACCOUNT_BASE : Nat := 0

/-- Modelled from the spec: `BIP32.CHANGE_CHAIN.EXTERNAL` of
`coins/bitcoin/constants` (the EXTERNAL member of the change-chain
enumeration). -/
def CHANGE_CHAIN_EXTERNAL : Nat := 0

/-- `generateAddressFromSeed` of `blockchain.js`, lines 80-93: takes
`numberOfAddresses + 1` as the next index, derives the keypair at
`account'/changeChain/addressIncrement` from the seed, and returns the
p2pkh address, the index, and the hex-encoded private key. -/
def generateAddressFromSeed (lib : CryptoLib) (mnemonicSeed : String)
    (account : Nat) (changeChain : Nat) (numberOfAddresses : Nat) : AddressRecord :=
  let addressIncrement := numberOfAddresses + 1
  let seed := lib.mnemonicToSeed mnemonicSeed
  let keys := lib.deriveKeys seed
    { account := account, changeChain := changeChain, addressIndex := addressIncrement }
  { address := lib.p2pkhAddress keys.1,
    index := addressIncrement,
    privateKey := bytesToHex keys.2 }

/-- One input record of a provider transaction (`blockCypher` shape): the
code reads `inputs[0].addresses[0]`. -/
structure ProviderTxInput where
  addresses : List String
  deriving Repr, DecidableEq

/-- One output record of a provider transaction: the addresses paid and the
integer satoshi value. -/
structure ProviderTxOutput where
  addresses : List String
  value : Int
  deriving Repr, DecidableEq

/-- A provider transaction record as consumed by
`formatTransactionResponse`: `confirmations` defaults to null (`none`). -/
structure ApiTransaction where
  confirmations : Option Int
  fees : Int
  hash : String
  inputs : List ProviderTxInput
  outputs : List ProviderTxOutput
  received : String
  deriving Repr, DecidableEq

/-- Modelled from the spec: `getTimestamp` of `lib/utils` normalizes the
provider's `received` field into the stored timestamp format; treated as
an opaque formatting of that field. -/
def getTimestamp (received : String) : String :=
  received

/-- A formatted transaction row as pushed by `formatTransactionResponse`
for db insert/update; `amount` is in the human-decimal unit
(`satoshiToFloat` is applied at this presentation boundary). -/
structure FormattedTransaction where
  amount : Rat
  created_date : String
  fee : Int
  receiver_address : Option String
  sender_address : String
  status : Nat
  transaction_id : String
  deriving Repr, DecidableEq

/-- The integer satoshi sum accumulated by the `outputs.forEach` loop of
`formatTransactionResponse`: values of the outputs paying `address`. -/
def outputSumFor (address : String) (outputs : List ProviderTxOutput) : Int :=
  outputs.foldl (fun acc o => if o.addresses.contains address then acc + o.value else acc) 0

/-- The body of the `transactions.forEach` loop of
`formatTransactionResponse`, lines 164-200: status 1 iff `confirmations`
is truthy, amount accumulated in satoshis over outputs paying `address`
and converted by `satoshiToFloat` only in the pushed record,
`receiver_address` set to `address` iff some output pays it,
`sender_address` from the first input's first address. -/
def formatTransaction (address : String) (t : ApiTransaction) : FormattedTransaction :=
  let status : Nat :=
    match t.confirmations with
    | some c => if c ≠ 0 then 1 else 0
    | none => 0
  let amount := outputSumFor address t.outputs
  let receiver : Option String :=
    if t.outputs.any (fun o => o.addresses.contains address) then some address else none
  { amount := satoshiToFloat amount,
    created_date := getTimestamp t.received,
    fee := t.fees,
    receiver_address := receiver,
    sender_address := ((t.inputs.headD { addresses := [] }).addresses.headD ""),
    status := status,
    transaction_id := t.hash }

/-- `formatTransactionResponse` of `blockchain.js`, lines 161-203. -/
def formatTransactionResponse (transactions : List ApiTransaction) (address : String) :
    List FormattedTransaction :=
  transactions.map (formatTransaction address)

/-- The provider's response to `GET FULL_ADDRESS(address)` consumed by
`fetchAddressDetails`: balance (integer satoshis) and raw transactions. -/
structure AddressDetailsResponse where
  balance : Int
  txs : List ApiTransaction

/-- `fetchAddressDetails` of `blockchain.js`, lines 139-153, as a function
of the provider response: returns the balance and the formatted
transactions. -/
def fetchAddressDetails (res : AddressDetailsResponse) (address : String) :
    Int × List FormattedTransaction :=
  (res.balance, formatTransactionResponse res.txs address)

/-- The wallet record passed to `refreshAddress`; the code reads `seed` and
`address_index`. -/
structure Wallet where
  seed : String
  address_index : Nat
  deriving Repr, DecidableEq

/-- The address record passed to `refreshAddress`; the code reads `address`
and `private_key`. The persistence layer's record also carries its own
index, which `refreshAddress` does not read. -/
structure AddressParam where
  address : String
  private_key : String
  index : Nat
  deriving Repr, DecidableEq

/-- The environment of one `refreshAddress` call: the response to the
balance fetch, the cryptographic library, and the provider responses seen
by the inner `sendFromOneAddress` call. -/
structure RefreshEnv where
  addressDetails : AddressDetailsResponse
  lib : CryptoLib
  sendProvider : Provider

/-- Result of `refreshAddress`: the returned address record, or an
exception escaping the async function (the inner send throwing is
re-raised by `await`). -/
inductive RefreshResult
  | record (r : AddressRecord)
  | thrown
  deriving Repr, DecidableEq

/-- Whether a `RefreshResult` is a returned address record. -/
def RefreshResult.isRecord : RefreshResult → Bool
  | RefreshResult.record _ => true
  | RefreshResult.thrown => false

/-- Full observable outcome of one `refreshAddress` call: the result, the
`paymentData` passed to the inner sweep (if one was attempted), whether a
new address was derived, and the inner send's outcome (if attempted). -/
structure RefreshOutcome where
  result : RefreshResult
  sweepPaymentData : Option (List Payment)
  derivedNewAddress : Bool
  sendOutcome : Option SendOutcome

/-- Whether the `refreshAddress` call ever issued a broadcast request. -/
def RefreshOutcome.broadcastHappened (o : RefreshOutcome) : Bool :=
  match o.sendOutcome with
  | some s => s.broadcastCalled
  | none => false

/-- `refreshAddress` of `blockchain.js`, lines 101-132, as a function of
its environment. Source order: fetch the balance; if `0 < balance ≤
DEFAULT_FEE` return the supplied address and key with the wallet's
`address_index`; otherwise derive the next address from the wallet seed at
index `address_index`; if the balance is nonzero, await
`sendFromOneAddress` sweeping `satoshiToFloat(balance - DEFAULT_FEE)` to
the new address — the awaited value is discarded, so only a thrown
exception interrupts the flow — and finally return the new address
record. -/
def refreshAddress (defaultFee : Int) (dustThreshold : Int) (env : RefreshEnv)
    (wallet : Wallet) (addressParam : AddressParam) : RefreshOutcome :=
  let balance := (fetchAddressDetails env.addressDetails addressParam.address).1
  let index := wallet.address_index
  if 0 < balance ∧ balance ≤ defaultFee then
    { result := RefreshResult.record
        { address := addressParam.address, index := index, privateKey := addressParam.private_key },
      sweepPaymentData := none, derivedNewAddress := false, sendOutcome := none }
  else
    let newAddressData :=
      generateAddressFromSeed env.lib wallet.seed ACCOUNT_BASE CHANGE_CHAIN_EXTERNAL index
    if balance ≠ 0 then
      let paymentData : List Payment :=
        [{ address := newAddressData.address, amount := satoshiToFloat (balance - defaultFee) }]
      let so := sendFromOneAddress dustThreshold defaultFee env.sendProvider
        addressParam.address addressParam.private_key paymentData
      let result :=
        match so.result with
        | SendResult.thrown => RefreshResult.thrown
        | _ => RefreshResult.record newAddressData
      { result := result, sweepPaymentData := some paymentData,
        derivedNewAddress := true, sendOutcome := some so }
    else
      { result := RefreshResult.record newAddressData, sweepPaymentData := none,
        derivedNewAddress := true, sendOutcome := none }

/-!
## Auxiliary facts about the embedded definitions
-/

/-- Total satoshi value of a UTXO list (the quantity the spec compares the
spend target against). -/
def utxoSum (utxos : List Utxo) : Int :=
  (utxos.map (fun u => (u.value : Int))).sum

theorem utxoSum_cons (u : Utxo) (rest : List Utxo) :
    utxoSum (u :: rest) = (u.value : Int) + utxoSum rest := by
  simp [utxoSum]

theorem utxoSum_nonneg (utxos : List Utxo) : 0 ≤ utxoSum utxos := by
  induction utxos with
  | nil => simp [utxoSum]
  | cons u rest ih =>
    rw [utxoSum_cons]
    exact add_nonneg (Int.natCast_nonneg _) ih

/-- The accumulator form of first-fit selection yields a negative remainder
exactly when even the whole UTXO list cannot reach the target. -/
theorem selectAux_snd_neg_iff (utxos : List Utxo) (acc target : Int) :
    (selectAux utxos acc target).2 < 0 ↔ acc + utxoSum utxos < target := by
  induction utxos generalizing acc with
  | nil =>
    by_cases h : target ≤ acc
    · simp only [selectAux, if_pos h, utxoSum, List.map_nil, List.sum_nil]
      omega
    · simp only [selectAux, if_neg h, utxoSum, List.map_nil, List.sum_nil]
      omega
  | cons u rest ih =>
    by_cases h : target ≤ acc
    · have hs := utxoSum_nonneg (u :: rest)
      simp only [selectAux, if_pos h]
      omega
    · simp only [selectAux, if_neg h]
      rw [ih, utxoSum_cons]
      omega

/-- `remainingSatoshis < 0` exactly when the summed UTXO values fall short
of the spend target. -/
theorem getInputs_snd_neg_iff (utxos : List Utxo) (t : Int) :
    (getInputs utxos t).2 < 0 ↔ utxoSum utxos < t := by
  have h := selectAux_snd_neg_iff utxos 0 t
  simpa [getInputs] using h

/-- The decimal conversion round-trips exactly: converting an integer
satoshi amount to the decimal unit and back recovers the integer. -/
theorem floatToSatoshi_satoshiToFloat (n : Int) :
    floatToSatoshi (satoshiToFloat n) = n := by
  unfold floatToSatoshi satoshiToFloat
  rw [div_mul_cancel₀ _ (by norm_num : (100000000 : Rat) ≠ 0)]
  exact Int.floor_intCast n

/-- Whether a `SendResult` is a typed error object (`asErrorObject`). -/
def SendResult.isErrorObject : SendResult → Bool
  | SendResult.errorObject _ => true
  | _ => false

/-- In the sweep branch of `refreshAddress` (balance neither zero nor in
the small-balance window), the `paymentData` handed to the inner
`sendFromOneAddress` call is one payment to the freshly derived address
with amount `satoshiToFloat (balance - DEFAULT_FEE)`. -/
theorem refreshAddress_sweepPaymentData_eq (defaultFee dustThreshold : Int)
    (env : RefreshEnv) (wallet : Wallet) (ap : AddressParam)
    (h1 : ¬ (0 < env.addressDetails.balance ∧ env.addressDetails.balance ≤ defaultFee))
    (h2 : env.addressDetails.balance ≠ 0) :
    (refreshAddress defaultFee dustThreshold env wallet ap).sweepPaymentData =
      some [{ address := (generateAddressFromSeed env.lib wallet.seed ACCOUNT_BASE
                CHANGE_CHAIN_EXTERNAL wallet.address_index).address,
              amount := satoshiToFloat (env.addressDetails.balance - defaultFee) }] := by
  simp only [refreshAddress, fetchAddressDetails, if_neg h1, if_pos h2]

/-!
## Concrete fixtures for the evaluation theorems
-/

/-- A concrete instance of the cryptographic pipeline, used only to
evaluate the engine on closed inputs (the claims about derivation are
proved for every `CryptoLib`). -/
def testLib : CryptoLib :=
  { mnemonicToSeed := fun m => [m.length % 256],
    deriveKeys := fun seed path =>
      (path.account :: path.changeChain :: path.addressIndex :: seed,
       path.addressIndex :: seed),
    p2pkhAddress := fun pub => "addr" ++ bytesToHex pub }

/-- A syntactically valid 32-byte private key in hex. -/
def validKeyHex : String := String.mk (List.replicate 64 'a')

def testWallet : Wallet := { seed := "test seed", address_index := 3 }

def testAddressParam : AddressParam :=
  { address := "oldAddr", private_key := validKeyHex, index := 7 }

/-!
## Claim theorems
-/

/-- Environment of the C1 failing input: balance 100000 with a default fee
of 30000, and a provider whose UTXO fetch fails, so the sweep inside
`refreshAddress` fails with the typed `API_ERROR` object. -/
def c1Env : RefreshEnv :=
  { addressDetails := { balance := 100000, txs := [] },
    lib := testLib,
    sendProvider := { utxoResult := Except.error (), broadcastResult := Except.error () } }

/-- C1: the claim states that when the sweep step of `refreshAddress` fails
(for example `ProviderError` on the UTXO fetch), the failure propagates and
no new address record is returned. The code violates this: the typed error
objects of `sendFromOneAddress` are returned values, not exceptions, and
`refreshAddress` discards the awaited value. At the failing input the inner
sweep fails with the `API_ERROR` object, yet `refreshAddress` still returns
the freshly derived address record. -/
theorem refreshAddress_swallows_sweep_failure :
    ((refreshAddress 30000 1000 c1Env testWallet testAddressParam).sendOutcome.map
        (fun s => s.result))
      = some (SendResult.errorObject BlockchainError.apiError)
    ∧ (refreshAddress 30000 1000 c1Env testWallet testAddressParam).result.isRecord = true := by
  constructor
  · decide
  · decide

/-- Environment of the C2 counterexample: balance one satoshi above the
default fee of 30000, so the sweep branch of `refreshAddress` runs. -/
def c2Env : RefreshEnv :=
  { addressDetails := { balance := 30001, txs := [] },
    lib := testLib,
    sendProvider := { utxoResult := Except.error (), broadcastResult := Except.error () } }

/-- C2 counterexample: the claim states that every monetary quantity is
passed internally as an integer number of satoshis and that decimal
conversion never happens mid-computation. But `refreshAddress` passes the
sweep amount to `sendFromOneAddress` as `satoshiToFloat(balance -
DEFAULT_FEE)`: at balance 30001 and fee 30000 the payment amount handed to
the inner call is the rational 1/10^8, whose denominator is 10^8 — an
integer number of satoshis cast to the decimal type would have denominator
1, so the quantity crossing this internal interface is not an integer
satoshi count. -/
theorem refreshAddress_passes_decimal_amount :
    ((refreshAddress 30000 1000 c2Env testWallet testAddressParam).sweepPaymentData.getD []).map
        (fun p => p.amount.den)
      = [100000000]
    ∧ (100000000 : Nat) ≠ 1 := by
  constructor
  · rw [refreshAddress_sweepPaymentData_eq 30000 1000 c2Env testWallet testAddressParam
      (by norm_num [c2Env]) (by norm_num [c2Env])]
    norm_num [c2Env, satoshiToFloat]
  · decide

/-- C2 amended: internal arithmetic in `sendFromOneAddress` (spend target,
selection, change) and the accumulation in `formatTransactionResponse` are
integer-satoshi, and `formatTransactionResponse` applies the decimal
conversion only to the final accumulated integer of each record; but
`refreshAddress` converts the sweep amount to the decimal unit
(`satoshiToFloat (balance - DEFAULT_FEE)`) before passing it to
`sendFromOneAddress`, which converts it back — in exact arithmetic this one
mid-computation decimal round-trips to exactly `balance - DEFAULT_FEE`
satoshis inside `getOutputs`. -/
theorem monetary_unit_roundtrip_amended (defaultFee dustThreshold : Int)
    (env : RefreshEnv) (wallet : Wallet) (ap : AddressParam)
    (txs : List ApiTransaction) (address : String)
    (hfee : 0 ≤ defaultFee) (hbal : defaultFee < env.addressDetails.balance) :
    ((refreshAddress defaultFee dustThreshold env wallet ap).sweepPaymentData.map
        (fun pd => pd.map (fun p => floatToSatoshi p.amount)))
      = some [env.addressDetails.balance - defaultFee]
    ∧ ∀ f ∈ formatTransactionResponse txs address,
        ∃ n : Int, f.amount = satoshiToFloat n := by
  constructor
  · have h1 : ¬ (0 < env.addressDetails.balance ∧ env.addressDetails.balance ≤ defaultFee) := by
      omega
    have h2 : env.addressDetails.balance ≠ 0 := by omega
    simp only [refreshAddress, fetchAddressDetails, if_neg h1, if_pos h2, Option.map_some',
      List.map_cons, List.map_nil, floatToSatoshi_satoshiToFloat]
  · intro f hf
    rcases List.mem_map.mp hf with ⟨t, ht, rfl⟩
    exact ⟨outputSumFor address t.outputs, rfl⟩

/-- Witness for the amended C2 theorem at balance 30001, fee 30000 and a
one-transaction provider history. -/
theorem monetary_unit_roundtrip_amended_witness :
    (0 : Int) ≤ 30000
    ∧ (30000 : Int) < (30001 : Int)
    ∧ (((refreshAddress 30000 1000 c2Env testWallet testAddressParam).sweepPaymentData.map
          (fun pd => pd.map (fun p => floatToSatoshi p.amount)))
        = some [(30001 : Int) - 30000]
      ∧ ∀ f ∈ formatTransactionResponse
            [{ confirmations := some 2, fees := 10, hash := "h1",
               inputs := [{ addresses := ["s1"] }],
               outputs := [{ addresses := ["r1"], value := 500 }], received := "ts" }] "r1",
          ∃ n : Int, f.amount = satoshiToFloat n) :=
  ⟨by norm_num, by norm_num,
   monetary_unit_roundtrip_amended 30000 1000 c2Env testWallet testAddressParam _ _
     (by norm_num) (by norm_num [c2Env])⟩

/-- C3: whenever the fetched UTXO set sums to less than the spend target
(payment amounts plus fee), `sendFromOneAddress` returns the
`INSUFFICIENT_FUNDS` error object, the transaction draft receives no
inputs (and no outputs), no input is signed, and the broadcast request is
never issued. -/
theorem insufficientFunds_aborts_before_build (dustThreshold fee : Int)
    (utxos : List Utxo) (bres : Except Unit BroadcastResponse)
    (fromAddress privateKey : String) (paymentData : List Payment)
    (hkey : isValidPrivateKeyHex privateKey = true)
    (hshort : utxoSum utxos < getSatoshisToSend (getOutputs paymentData) fee) :
    sendFromOneAddress dustThreshold fee
        { utxoResult := Except.ok utxos, broadcastResult := bres }
        fromAddress privateKey paymentData
      = { result := asErrorObject BlockchainError.insufficientFunds,
          draft := emptyDraft, signCount := 0, broadcastCalled := false } := by
  have hneg : (getInputs utxos (getSatoshisToSend (getOutputs paymentData) fee)).2 < 0 :=
    (getInputs_snd_neg_iff _ _).mpr hshort
  simp only [sendFromOneAddress, hkey, Bool.true_eq_false, if_false]
  rw [if_pos hneg]

/-- Witness for the C3 theorem: the spec reference scenario — a single
500-satoshi UTXO against a 60000-satoshi target. -/
theorem insufficientFunds_aborts_before_build_witness :
    isValidPrivateKeyHex validKeyHex = true
    ∧ utxoSum [{ txid := "t1", vout := 0, value := 500 }]
        < getSatoshisToSend (getOutputs [{ address := "dest", amount := satoshiToFloat 50000 }]) 10000
    ∧ sendFromOneAddress 1000 10000
        { utxoResult := Except.ok [{ txid := "t1", vout := 0, value := 500 }],
          broadcastResult := Except.error () }
        "from" validKeyHex [{ address := "dest", amount := satoshiToFloat 50000 }]
      = { result := asErrorObject BlockchainError.insufficientFunds,
          draft := emptyDraft, signCount := 0, broadcastCalled := false } :=
  ⟨by decide,
   by simp [utxoSum, getSatoshisToSend, getOutputs, floatToSatoshi_satoshiToFloat],
   insufficientFunds_aborts_before_build 1000 10000 _ _ _ _ _ (by decide)
     (by simp [utxoSum, getSatoshisToSend, getOutputs, floatToSatoshi_satoshiToFloat])⟩

/-- C4 counterexample: the claim states that a broadcast response carrying
a success status but no transaction id makes the operation fail with
`BroadcastError`. The code checks only the status: at status 200 with no
`txid` in the body, `sendFromOneAddress` returns the success object — its
link built from the missing id — not the `BROADCAST_ERROR` object. -/
theorem broadcast_missing_txid_is_success :
    (sendFromOneAddress 1000 60000
        { utxoResult := Except.ok [{ txid := "t1", vout := 0, value := 100000 }],
          broadcastResult := Except.ok { status := 200, txid := none } }
        "from" validKeyHex []).result
      = SendResult.ok (viewTx none)
    ∧ SendResult.ok (viewTx none) ≠ asErrorObject BlockchainError.broadcastError := by
  constructor
  · decide
  · decide

/-- C4 amended: once the flow reaches the broadcast step and the request
itself does not throw, `BROADCAST_ERROR` is returned exactly when the
response status is not 200; a 200 response is treated as success whether
or not a transaction id is present (the link is then built from the
missing id). -/
theorem broadcastError_iff_status_not_200 (dustThreshold fee : Int) (utxos : List Utxo)
    (resp : BroadcastResponse) (fromAddress privateKey : String) (paymentData : List Payment)
    (hkey : isValidPrivateKeyHex privateKey = true)
    (hfunds : getSatoshisToSend (getOutputs paymentData) fee ≤ utxoSum utxos) :
    ((sendFromOneAddress dustThreshold fee
        { utxoResult := Except.ok utxos, broadcastResult := Except.ok resp }
        fromAddress privateKey paymentData).result
        = asErrorObject BlockchainError.broadcastError
      ↔ resp.status ≠ 200)
    ∧ (resp.status = 200 →
        (sendFromOneAddress dustThreshold fee
            { utxoResult := Except.ok utxos, broadcastResult := Except.ok resp }
            fromAddress privateKey paymentData).result
          = SendResult.ok (viewTx resp.txid)) := by
  have hrem : ¬ ((getInputs utxos (getSatoshisToSend (getOutputs paymentData) fee)).2 < 0) := by
    rw [getInputs_snd_neg_iff]
    omega
  by_cases hs : resp.status = 200 <;>
    simp [sendFromOneAddress, hkey, if_neg hrem, hs, asErrorObject]

/-- Witness for the amended C4 theorem: a 200 response with no transaction
id yields the success result with the link built from the missing id. -/
theorem broadcastError_iff_status_not_200_witness :
    isValidPrivateKeyHex validKeyHex = true
    ∧ getSatoshisToSend (getOutputs []) 60000
        ≤ utxoSum [{ txid := "t1", vout := 0, value := 100000 }]
    ∧ (((sendFromOneAddress 1000 60000
          { utxoResult := Except.ok [{ txid := "t1", vout := 0, value := 100000 }],
            broadcastResult := Except.ok { status := 200, txid := none } }
          "from" validKeyHex []).result
          = asErrorObject BlockchainError.broadcastError
        ↔ (200 : Nat) ≠ 200)
      ∧ ((200 : Nat) = 200 →
          (sendFromOneAddress 1000 60000
              { utxoResult := Except.ok [{ txid := "t1", vout := 0, value := 100000 }],
                broadcastResult := Except.ok { status := 200, txid := none } }
              "from" validKeyHex []).result
            = SendResult.ok (viewTx none))) :=
  ⟨by decide, by decide,
   broadcastError_iff_status_not_200 1000 60000 _ _ _ _ _ (by decide) (by decide)⟩

/-- C5: whenever the fetched balance `b` satisfies `0 < b ≤ DEFAULT_FEE`
(the boundary `b = DEFAULT_FEE` included), `refreshAddress` returns the
supplied address and private key unchanged — no new address is derived and
no sweep transaction (hence no broadcast) happens. -/
theorem small_balance_returns_same_address (defaultFee dustThreshold : Int)
    (env : RefreshEnv) (wallet : Wallet) (ap : AddressParam)
    (h1 : 0 < env.addressDetails.balance) (h2 : env.addressDetails.balance ≤ defaultFee) :
    (refreshAddress defaultFee dustThreshold env wallet ap).result
      = RefreshResult.record
          { address := ap.address, index := wallet.address_index, privateKey := ap.private_key }
    ∧ (refreshAddress defaultFee dustThreshold env wallet ap).derivedNewAddress = false
    ∧ (refreshAddress defaultFee dustThreshold env wallet ap).broadcastHappened = false := by
  have h : 0 < env.addressDetails.balance ∧ env.addressDetails.balance ≤ defaultFee := ⟨h1, h2⟩
  refine ⟨?_, ?_, ?_⟩ <;>
    simp only [refreshAddress, fetchAddressDetails, if_pos h, RefreshOutcome.broadcastHappened]

/-- Witness for the C5 theorem at the boundary: balance exactly equal to
the default fee of 30000. -/
theorem small_balance_returns_same_address_witness :
    (0 : Int) < 30000
    ∧ (30000 : Int) ≤ 30000
    ∧ ((refreshAddress 30000 1000
          { addressDetails := { balance := 30000, txs := [] }, lib := testLib,
            sendProvider := { utxoResult := Except.error (), broadcastResult := Except.error () } }
          testWallet testAddressParam).result
        = RefreshResult.record
            { address := testAddressParam.address, index := testWallet.address_index,
              privateKey := testAddressParam.private_key }
      ∧ (refreshAddress 30000 1000
          { addressDetails := { balance := 30000, txs := [] }, lib := testLib,
            sendProvider := { utxoResult := Except.error (), broadcastResult := Except.error () } }
          testWallet testAddressParam).derivedNewAddress = false
      ∧ (refreshAddress 30000 1000
          { addressDetails := { balance := 30000, txs := [] }, lib := testLib,
            sendProvider := { utxoResult := Except.error (), broadcastResult := Except.error () } }
          testWallet testAddressParam).broadcastHappened = false) :=
  ⟨by decide, by decide,
   small_balance_returns_same_address 30000 1000 _ _ _ (by decide) (by decide)⟩

/-- C6: when the fetched balance is exactly 0, `refreshAddress` performs no
sweep and no broadcast (the inner send is never invoked) and always
returns the freshly derived address record produced by
`generateAddressFromSeed` at the wallet's address index. -/
theorem zero_balance_rotates_without_broadcast (defaultFee dustThreshold : Int)
    (env : RefreshEnv) (wallet : Wallet) (ap : AddressParam)
    (h0 : env.addressDetails.balance = 0) :
    (refreshAddress defaultFee dustThreshold env wallet ap).result
      = RefreshResult.record (generateAddressFromSeed env.lib wallet.seed ACCOUNT_BASE
          CHANGE_CHAIN_EXTERNAL wallet.address_index)
    ∧ (refreshAddress defaultFee dustThreshold env wallet ap).broadcastHappened = false
    ∧ (refreshAddress defaultFee dustThreshold env wallet ap).sendOutcome = none
    ∧ (refreshAddress defaultFee dustThreshold env wallet ap).derivedNewAddress = true := by
  have h1 : ¬ (0 < env.addressDetails.balance ∧ env.addressDetails.balance ≤ defaultFee) := by
    omega
  have h2 : ¬ (env.addressDetails.balance ≠ 0) := by omega
  refine ⟨?_, ?_, ?_, ?_⟩ <;>
    simp only [refreshAddress, fetchAddressDetails, if_neg h1, if_neg h2,
      RefreshOutcome.broadcastHappened]

/-- Witness for the C6 theorem at balance 0. -/
theorem zero_balance_rotates_without_broadcast_witness :
    ((0 : Int) = 0)
    ∧ ((refreshAddress 30000 1000
          { addressDetails := { balance := 0, txs := [] }, lib := testLib,
            sendProvider := { utxoResult := Except.error (), broadcastResult := Except.error () } }
          testWallet testAddressParam).result
        = RefreshResult.record (generateAddressFromSeed testLib testWallet.seed ACCOUNT_BASE
            CHANGE_CHAIN_EXTERNAL testWallet.address_index)
      ∧ (refreshAddress 30000 1000
          { addressDetails := { balance := 0, txs := [] }, lib := testLib,
            sendProvider := { utxoResult := Except.error (), broadcastResult := Except.error () } }
          testWallet testAddressParam).broadcastHappened = false
      ∧ (refreshAddress 30000 1000
          { addressDetails := { balance := 0, txs := [] }, lib := testLib,
            sendProvider := { utxoResult := Except.error (), broadcastResult := Except.error () } }
          testWallet testAddressParam).sendOutcome = none
      ∧ (refreshAddress 30000 1000
          { addressDetails := { balance := 0, txs := [] }, lib := testLib,
            sendProvider := { utxoResult := Except.error (), broadcastResult := Except.error () } }
          testWallet testAddressParam).derivedNewAddress = true) :=
  ⟨by decide,
   zero_balance_rotates_without_broadcast 30000 1000 _ _ _ (by decide)⟩

/-- C7: when selection succeeds (the funds hypothesis makes
`remainingSatoshis ≥ 0`) and the dust threshold is non-negative, a change
output paying `fromAddress` the remainder is appended exactly when the
remainder exceeds the dust threshold, and it is the last output, after the
destination outputs in caller-supplied order; when the remainder is at or
below the threshold (zero included) the outputs are exactly the
destination outputs, no error is raised for it, and the flow proceeds to
broadcast. -/
theorem change_output_dust_rule (dustThreshold fee : Int) (utxos : List Utxo)
    (bres : Except Unit BroadcastResponse) (fromAddress privateKey : String)
    (paymentData : List Payment)
    (hkey : isValidPrivateKeyHex privateKey = true)
    (hdust : 0 ≤ dustThreshold)
    (hfunds : getSatoshisToSend (getOutputs paymentData) fee ≤ utxoSum utxos) :
    (dustThreshold < (getInputs utxos (getSatoshisToSend (getOutputs paymentData) fee)).2 →
      (sendFromOneAddress dustThreshold fee
          { utxoResult := Except.ok utxos, broadcastResult := bres }
          fromAddress privateKey paymentData).draft.outputs
        = getOutputs paymentData
          ++ [{ address := fromAddress,
                satoshis := (getInputs utxos (getSatoshisToSend (getOutputs paymentData) fee)).2 }])
    ∧ ((getInputs utxos (getSatoshisToSend (getOutputs paymentData) fee)).2 ≤ dustThreshold →
      (sendFromOneAddress dustThreshold fee
          { utxoResult := Except.ok utxos, broadcastResult := bres }
          fromAddress privateKey paymentData).draft.outputs
        = getOutputs paymentData)
    ∧ (sendFromOneAddress dustThreshold fee
          { utxoResult := Except.ok utxos, broadcastResult := bres }
          fromAddress privateKey paymentData).result
        ≠ asErrorObject BlockchainError.insufficientFunds
    ∧ (sendFromOneAddress dustThreshold fee
          { utxoResult := Except.ok utxos, broadcastResult := bres }
          fromAddress privateKey paymentData).broadcastCalled = true := by
  have hrem : ¬ ((getInputs utxos (getSatoshisToSend (getOutputs paymentData) fee)).2 < 0) := by
    rw [getInputs_snd_neg_iff]
    omega
  refine ⟨?_, ?_, ?_, ?_⟩
  · intro hgt
    have hc : (getInputs utxos (getSatoshisToSend (getOutputs paymentData) fee)).2 ≠ 0
        ∧ dustThreshold < (getInputs utxos (getSatoshisToSend (getOutputs paymentData) fee)).2 :=
      ⟨by omega, hgt⟩
    simp only [sendFromOneAddress, hkey, Bool.true_eq_false, if_false, if_neg hrem, if_pos hc]
  · intro hle
    have hc : ¬ ((getInputs utxos (getSatoshisToSend (getOutputs paymentData) fee)).2 ≠ 0
        ∧ dustThreshold < (getInputs utxos (getSatoshisToSend (getOutputs paymentData) fee)).2) := by
      omega
    simp only [sendFromOneAddress, hkey, Bool.true_eq_false, if_false, if_neg hrem, if_neg hc]
  · cases bres with
    | error e => simp [sendFromOneAddress, hkey, if_neg hrem, asErrorObject]
    | ok resp =>
      by_cases hs : resp.status = 200 <;>
        simp [sendFromOneAddress, hkey, if_neg hrem, hs, asErrorObject]
  · simp only [sendFromOneAddress, hkey, Bool.true_eq_false, if_false, if_neg hrem]

/-- Witness for the C7 theorem: the spec reference scenario — UTXOs of
50000 and 30000 satoshis against a 60000-satoshi target with dust
threshold 1000; both inputs are selected and the 20000-satoshi change
output comes after the destination output. -/
theorem change_output_dust_rule_witness :
    isValidPrivateKeyHex validKeyHex = true
    ∧ (0 : Int) ≤ 1000
    ∧ getSatoshisToSend
          (getOutputs [{ address := "dest", amount := satoshiToFloat 50000 }]) 10000
        ≤ utxoSum [{ txid := "a", vout := 0, value := 50000 },
                   { txid := "b", vout := 1, value := 30000 }]
    ∧ ((1000
          < (getInputs [{ txid := "a", vout := 0, value := 50000 },
                        { txid := "b", vout := 1, value := 30000 }]
              (getSatoshisToSend
                (getOutputs [{ address := "dest", amount := satoshiToFloat 50000 }]) 10000)).2 →
        (sendFromOneAddress 1000 10000
            { utxoResult := Except.ok [{ txid := "a", vout := 0, value := 50000 },
                                       { txid := "b", vout := 1, value := 30000 }],
              broadcastResult := Except.ok { status := 200, txid := some "id1" } }
            "from" validKeyHex [{ address := "dest", amount := satoshiToFloat 50000 }]).draft.outputs
          = getOutputs [{ address := "dest", amount := satoshiToFloat 50000 }]
            ++ [{ address := "from",
                  satoshis := (getInputs [{ txid := "a", vout := 0, value := 50000 },
                                          { txid := "b", vout := 1, value := 30000 }]
                    (getSatoshisToSend
                      (getOutputs [{ address := "dest", amount := satoshiToFloat 50000 }])
                      10000)).2 }])
      ∧ ((getInputs [{ txid := "a", vout := 0, value := 50000 },
                     { txid := "b", vout := 1, value := 30000 }]
            (getSatoshisToSend
              (getOutputs [{ address := "dest", amount := satoshiToFloat 50000 }]) 10000)).2
            ≤ 1000 →
        (sendFromOneAddress 1000 10000
            { utxoResult := Except.ok [{ txid := "a", vout := 0, value := 50000 },
                                       { txid := "b", vout := 1, value := 30000 }],
              broadcastResult := Except.ok { status := 200, txid := some "id1" } }
            "from" validKeyHex [{ address := "dest", amount := satoshiToFloat 50000 }]).draft.outputs
          = getOutputs [{ address := "dest", amount := satoshiToFloat 50000 }])
      ∧ (sendFromOneAddress 1000 10000
            { utxoResult := Except.ok [{ txid := "a", vout := 0, value := 50000 },
                                       { txid := "b", vout := 1, value := 30000 }],
              broadcastResult := Except.ok { status := 200, txid := some "id1" } }
            "from" validKeyHex [{ address := "dest", amount := satoshiToFloat 50000 }]).result
          ≠ asErrorObject BlockchainError.insufficientFunds
      ∧ (sendFromOneAddress 1000 10000
            { utxoResult := Except.ok [{ txid := "a", vout := 0, value := 50000 },
                                       { txid := "b", vout := 1, value := 30000 }],
              broadcastResult := Except.ok { status := 200, txid := some "id1" } }
            "from" validKeyHex [{ address := "dest", amount := satoshiToFloat 50000 }]).broadcastCalled
          = true) :=
  ⟨by decide, by decide,
   by simp [utxoSum, getSatoshisToSend, getOutputs, floatToSatoshi_satoshiToFloat],
   change_output_dust_rule 1000 10000 _ _ _ _ _ (by decide) (by decide)
     (by simp [utxoSum, getSatoshisToSend, getOutputs, floatToSatoshi_satoshiToFloat])⟩

/-- C8: `generateAddressFromSeed` returns index `numberOfAddresses + 1` for
every non-negative `numberOfAddresses` (callers passing 0 receive index 1),
and it is a deterministic pure function of (library, seed, account,
changeChain, numberOfAddresses): repeated calls with identical inputs yield
the identical address, index and privateKey record. -/
theorem generateAddressFromSeed_index_and_determinism (lib : CryptoLib)
    (mnemonicSeed : String) (account changeChain numberOfAddresses : Nat) :
    (generateAddressFromSeed lib mnemonicSeed account changeChain numberOfAddresses).index
      = numberOfAddresses + 1
    ∧ (generateAddressFromSeed lib mnemonicSeed account changeChain 0).index = 1
    ∧ generateAddressFromSeed lib mnemonicSeed account changeChain numberOfAddresses
      = generateAddressFromSeed lib mnemonicSeed account changeChain numberOfAddresses :=
  ⟨rfl, rfl, rfl⟩

/-- C9 counterexample: the claim states a malformed private key makes the
operation fail with a `SigningError` surfaced as an explicit typed result.
The engine's typed error results are only `API_ERROR`,
`INSUFFICIENT_FUNDS` and `BROADCAST_ERROR`; with the malformed key "beef"
the key parse throws and the exception escapes the async function untyped:
the outcome is `thrown`, not an error object of any kind. -/
theorem malformed_key_throws_untyped :
    (sendFromOneAddress 1000 10000
        { utxoResult := Except.ok [], broadcastResult := Except.error () }
        "from" "beef" []).result = SendResult.thrown
    ∧ (sendFromOneAddress 1000 10000
        { utxoResult := Except.ok [], broadcastResult := Except.error () }
        "from" "beef" []).result.isErrorObject = false := by
  constructor
  · decide
  · decide

/-- C9 amended: a malformed private key makes `sendFromOneAddress` throw
before any other work: the exception propagates to the caller untyped (no
`SigningError` result variant exists in the code), the draft stays empty,
nothing is signed and no broadcast is attempted. -/
theorem malformed_key_no_typed_result (dustThreshold fee : Int) (provider : Provider)
    (fromAddress privateKey : String) (paymentData : List Payment)
    (hkey : isValidPrivateKeyHex privateKey = false) :
    sendFromOneAddress dustThreshold fee provider fromAddress privateKey paymentData
      = { result := SendResult.thrown, draft := emptyDraft, signCount := 0,
          broadcastCalled := false } := by
  unfold sendFromOneAddress
  rw [hkey]
  simp

/-- Witness for the amended C9 theorem at the malformed key "beef". -/
theorem malformed_key_no_typed_result_witness :
    isValidPrivateKeyHex "beef" = false
    ∧ sendFromOneAddress 1000 10000
        { utxoResult := Except.ok [], broadcastResult := Except.error () }
        "from" "beef" []
      = { result := SendResult.thrown, draft := emptyDraft, signCount := 0,
          broadcastCalled := false } :=
  ⟨by decide, malformed_key_no_typed_result 1000 10000 _ _ _ _ (by decide)⟩

/-- C10: in the small-balance branch (0 < balance ≤ DEFAULT_FEE) the
returned record reuses the caller-supplied address and private key
unchanged, while its index field is the wallet record's `address_index`
(not the supplied address record's own index field, which is never read);
nothing else happens: no sweep call, no payment data, no derivation. -/
theorem small_balance_index_from_wallet (defaultFee dustThreshold : Int)
    (env : RefreshEnv) (wallet : Wallet) (ap : AddressParam)
    (h1 : 0 < env.addressDetails.balance) (h2 : env.addressDetails.balance ≤ defaultFee) :
    (refreshAddress defaultFee dustThreshold env wallet ap).result
      = RefreshResult.record
          { address := ap.address, index := wallet.address_index, privateKey := ap.private_key }
    ∧ (refreshAddress defaultFee dustThreshold env wallet ap).sendOutcome = none
    ∧ (refreshAddress defaultFee dustThreshold env wallet ap).sweepPaymentData = none
    ∧ (refreshAddress defaultFee dustThreshold env wallet ap).derivedNewAddress = false := by
  have h : 0 < env.addressDetails.balance ∧ env.addressDetails.balance ≤ defaultFee := ⟨h1, h2⟩
  refine ⟨?_, ?_, ?_, ?_⟩ <;> simp only [refreshAddress, fetchAddressDetails, if_pos h]

/-- Witness for the C10 theorem: the supplied address record carries index
7 while the wallet's `address_index` is 3; the returned record's index is
the wallet's 3. -/
theorem small_balance_index_from_wallet_witness :
    (0 : Int) < 20000
    ∧ (20000 : Int) ≤ 30000
    ∧ ((refreshAddress 30000 1000
          { addressDetails := { balance := 20000, txs := [] }, lib := testLib,
            sendProvider := { utxoResult := Except.error (), broadcastResult := Except.error () } }
          testWallet testAddressParam).result
        = RefreshResult.record
            { address := testAddressParam.address, index := testWallet.address_index,
              privateKey := testAddressParam.private_key }
      ∧ (refreshAddress 30000 1000
          { addressDetails := { balance := 20000, txs := [] }, lib := testLib,
            sendProvider := { utxoResult := Except.error (), broadcastResult := Except.error () } }
          testWallet testAddressParam).sendOutcome = none
      ∧ (refreshAddress 30000 1000
          { addressDetails := { balance := 20000, txs := [] }, lib := testLib,
            sendProvider := { utxoResult := Except.error (), broadcastResult := Except.error () } }
          testWallet testAddressParam).sweepPaymentData = none
      ∧ (refreshAddress 30000 1000
          { addressDetails := { balance := 20000, txs := [] }, lib := testLib,
            sendProvider := { utxoResult := Except.error (), broadcastResult := Except.error () } }
          testWallet testAddressParam).derivedNewAddress = false) :=
  ⟨by decide, by decide,
   small_balance_index_from_wallet 30000 1000 _ _ _ (by decide) (by decide)⟩
